import Mathlib

/-!
Verification of the structured logging module of `nextjs-pino-compat-repro`.

The embedding below translates `src/logging.ts` (the module exporting
`LOG_LEVELS`, `createLogger`, `Logger`, `ColorLogger` and the default
`logger` instance) into Lean definitions:

* the severity table `LOG_LEVELS` and the short-code table `levelToShort`;
* the pino option objects `baseConfig`, `devConfig`, `prodConfig`,
  `browserConfig` (modelled as a record of the option fields the claims
  depend on: which formatters are present, the threshold level, and the
  browser flag);
* ambient runtime signals (`typeof window`, `typeof process`,
  `process.env.*`, `navigator.userAgent`) as an explicit `Env` record,
  since the TypeScript reads them as globals;
* `createLogger`, whose possible exception (the call to the external
  collaborator `createPrettyLogStream()` in the development non-browser
  branch) is made explicit by an `Except` result and a `prettyFails`
  input describing whether that collaborator throws;
* the `Logger` facade with its eight severity methods, `extend`, and the
  Slack-payload construction inside `critical`.

`JSON.stringify(args, null, 2)` is modelled by `jsonStringify` over a
small JSON value type (string escaping is restricted to the common
escapes; no theorem below depends on the rendering of a particular
string).
-/

namespace PinoCompat

/-- The custom severity table, in the declared order of `LOG_LEVELS`
in `src/logging.ts` (name, numeric weight). -/
def LOG_LEVELS : List (String × Nat) :=
  [("trace", 10), ("debug", 20), ("details", 25), ("log", 30),
   ("info", 35), ("warn", 40), ("error", 50), ("critical", 60)]

/-- `Object.keys(LOG_LEVELS)`: the declared level names. -/
def levelNames : List String := LOG_LEVELS.map Prod.fst

/-- `LOG_LEVELS[label]`: weight of a level name. -/
def weightOf (label : String) : Option Nat := LOG_LEVELS.lookup label

/-- The `levelToShort` table: numeric weight to 3-letter display code. -/
def levelToShort : List (Nat × String) :=
  [(10, "TRC"), (20, "DBG"), (25, "DTL"), (30, "LOG"),
   (35, "INF"), (40, "WRN"), (50, "ERR"), (60, "CRT")]

/-- Short code of a weight; "UNK" when the weight is not in the table
(the spec's `shortCodeOf(weight) -> code|"UNK"` lookup). -/
def shortCodeOf (w : Nat) : String := (levelToShort.lookup w).getD "UNK"

/-- The `formatters.level` function: a recognized level name maps
through `LOG_LEVELS` and `levelToShort`; anything else maps to "UNK". -/
def formatLevel (label : String) : String :=
  if label ∈ levelNames then
    ((weightOf label).bind (fun w => levelToShort.lookup w)).getD "undefined"
  else "UNK"

/-- A JSON value, for the variadic `args: unknown[]` payloads. -/
inductive JsonValue where
  | jnull : JsonValue
  | jbool : Bool → JsonValue
  | jnum : Int → JsonValue
  | jstr : String → JsonValue
  | jarr : List JsonValue → JsonValue
  | jobj : List (String × JsonValue) → JsonValue

/-- Escaping of one character inside a JSON string literal. -/
def escapeJsonChar (c : Char) : String :=
  if c = '"' then "\\\""
  else if c = '\\' then "\\\\"
  else if c = '\n' then "\\n"
  else if c = '\t' then "\\t"
  else if c = '\r' then "\\r"
  else String.singleton c

/-- Escaping of a JSON string literal body. -/
def escapeJsonString (s : String) : String :=
  String.join (s.toList.map escapeJsonChar)

/-- Indentation produced by `JSON.stringify`'s third argument `2`. -/
def indentOf (depth : Nat) : String := String.join (List.replicate depth "  ")

mutual

/-- `JSON.stringify(v, null, 2)` at a given nesting depth. -/
def jsonStringify (depth : Nat) : JsonValue → String
  | JsonValue.jnull => "null"
  | JsonValue.jbool b => if b then "true" else "false"
  | JsonValue.jnum n => toString n
  | JsonValue.jstr s => "\"" ++ escapeJsonString s ++ "\""
  | JsonValue.jarr xs =>
      if xs.isEmpty then "[]"
      else "[\n" ++ jsonStringifyItems (depth + 1) xs ++ "\n" ++ indentOf depth ++ "]"
  | JsonValue.jobj fs =>
      if fs.isEmpty then "\x7b\x7d"
      else "\x7b\n" ++ jsonStringifyFields (depth + 1) fs ++ "\n" ++ indentOf depth ++ "\x7d"

/-- Comma/newline-separated, indented rendering of array items. -/
def jsonStringifyItems (depth : Nat) : List JsonValue → String
  | [] => ""
  | [x] => indentOf depth ++ jsonStringify depth x
  | x :: y :: rest =>
      indentOf depth ++ jsonStringify depth x ++ ",\n" ++
        jsonStringifyItems depth (y :: rest)

/-- Comma/newline-separated, indented rendering of object fields. -/
def jsonStringifyFields (depth : Nat) : List (String × JsonValue) → String
  | [] => ""
  | [(k, v)] =>
      indentOf depth ++ "\"" ++ escapeJsonString k ++ "\": " ++ jsonStringify depth v
  | (k, v) :: y :: rest =>
      indentOf depth ++ "\"" ++ escapeJsonString k ++ "\": " ++ jsonStringify depth v ++
        ",\n" ++ jsonStringifyFields depth (y :: rest)

end

/-- Ambient runtime signals read by `src/logging.ts` as globals:
presence of `window`/`document`/`navigator`/`process`, whether
`navigator.userAgent` contains "Node.js", and the environment
variables `NODE_ENV`, `LOG_LEVEL`, `NEXT_RUNTIME`,
a `NEXT_PUBLIC_`-named key, and `SLACK_WEBHOOK_URL`. -/
structure Env where
  hasWindow : Bool
  hasDocument : Bool
  hasNavigator : Bool
  userAgentIncludesNodeJS : Bool
  hasProcess : Bool
  nodeEnvProduction : Bool
  logLevelVar : Option String
  nextRuntimeSet : Bool
  hasNextPublicEnvKey : Bool
  slackWebhookUrl : Option String
deriving DecidableEq, Repr

/-- A pino option object, restricted to the fields the claims depend
on: which of the two custom formatters are present, the configured
threshold level (none when the option object sets no `level`), and
whether the `browser` transport options are present.  All three
option objects share `customLevels: LOG_LEVELS` and
`useOnlyCustomLevels: true`; these are hard-wired into the emission
model below. -/
structure PinoConfig where
  hasLevelFormatter : Bool
  hasBindingsFormatter : Bool
  hasTimestamp : Bool
  level : Option String
  browser : Bool
deriving DecidableEq, Repr

/-- The property names the `LOG_LEVELS` object literal inherits from
`Object.prototype`.  The JavaScript `in` operator walks the prototype
chain, so `s in LOG_LEVELS` is true for these names as well as for the
eight own keys. -/
def objectPrototypeKeys : List String :=
  ["constructor", "hasOwnProperty", "isPrototypeOf", "propertyIsEnumerable",
   "toLocaleString", "toString", "valueOf", "__proto__", "__defineGetter__",
   "__defineSetter__", "__lookupGetter__", "__lookupSetter__"]

/-- `level: process.env.LOG_LEVEL && process.env.LOG_LEVEL in LOG_LEVELS
? process.env.LOG_LEVEL : <dflt>` — the truthiness test plus the `in`
test, which matches the eight declared keys and the properties
inherited from `Object.prototype`. -/
def resolveLevel (v : Option String) (dflt : String) : String :=
  match v with
  | some s =>
      if s ≠ "" ∧ (s ∈ levelNames ∨ s ∈ objectPrototypeKeys) then s else dflt
  | none => dflt

/-- `baseConfig`: both formatters and the timestamp, no level set. -/
def baseConfig : PinoConfig :=
  { hasLevelFormatter := true, hasBindingsFormatter := true,
    hasTimestamp := true, level := none, browser := false }

/-- `devConfig`: spreads `baseConfig` but replaces `formatters` with
only the bindings formatter (the level formatter is omitted so that
pino-pretty receives numeric levels); default threshold "details". -/
def devConfig (e : Env) : PinoConfig :=
  { baseConfig with
    hasLevelFormatter := false,
    level := some (resolveLevel e.logLevelVar "details") }

/-- `prodConfig`: spreads `baseConfig` (so it keeps the level
formatter); default threshold "info". -/
def prodConfig (e : Env) : PinoConfig :=
  { baseConfig with level := some (resolveLevel e.logLevelVar "info") }

/-- `browserConfig`: only `customLevels`, `useOnlyCustomLevels` and
`browser: … asObject: false …` — the `...envConfig` spread is commented
out in the source, so no formatters, no timestamp and no level are set. -/
def browserConfig : PinoConfig :=
  { hasLevelFormatter := false, hasBindingsFormatter := false,
    hasTimestamp := false, level := none, browser := true }

/-- The `isRealBrowser` test in `createLogger`. -/
def isRealBrowser (e : Env) : Bool :=
  e.hasWindow && e.hasDocument && e.hasNavigator &&
    !e.userAgentIncludesNodeJS && !e.hasProcess

/-- The `isNextJS` test in `createLogger` (computed but never used by
the configuration branch). -/
def isNextJS (e : Env) : Bool :=
  (e.hasWindow && e.hasProcess) ||
    (e.hasProcess && e.nextRuntimeSet) ||
    (e.hasProcess && e.hasNextPublicEnvKey)

/-- Which of the three option objects `createLogger` assigns to
`config`. -/
inductive ConfigChoice where
  | browser : ConfigChoice
  | prod : ConfigChoice
  | dev : ConfigChoice
deriving DecidableEq, Repr

/-- The `if (isRealBrowser) … else if (process.env.NODE_ENV ===
"production") … else …` chain in `createLogger`. -/
def selectConfig (e : Env) : ConfigChoice :=
  if isRealBrowser e then ConfigChoice.browser
  else if e.nodeEnvProduction then ConfigChoice.prod
  else ConfigChoice.dev

/-- The option object corresponding to the selected branch. -/
def configOf (e : Env) : PinoConfig :=
  match selectConfig e with
  | ConfigChoice.browser => browserConfig
  | ConfigChoice.prod => prodConfig e
  | ConfigChoice.dev => devConfig e

/-- The destination a constructed pino instance writes to: the stream
returned by the external collaborator `createPrettyLogStream()`, or
pino's default destination (stdout on the server, the console under the
browser transport). -/
inductive Sink where
  | pretty : Sink
  | defaultDestination : Sink
deriving DecidableEq, Repr

/-- The constructed pino instance (`logger.child(\x7b name \x7d)`): the
option object it was built from (with the caller-supplied level
substituted via `level: level || config.level`), the sink, and the
`name` binding of the child. -/
structure PinoLogger where
  config : PinoConfig
  level : Option String
  sink : Sink
  name : String
deriving Repr

/-- `level || config.level`: a truthy caller-supplied level wins,
otherwise the option object's level is used. -/
def orConfigLevel (callerLevel : Option String) (configLevel : Option String) :
    Option String :=
  match callerLevel with
  | some s => if s = "" then configLevel else some s
  | none => callerLevel.or configLevel

/-- `createLogger(name, level?)`.  The development non-browser branch
(`config === devConfig && typeof window === "undefined"`) passes the
result of `createPrettyLogStream()` to pino; that call is not guarded,
so when the collaborator throws (`prettyFails`), the exception
propagates out of construction — modelled by the `Except.error`
result.  Every other branch builds pino on its default destination. -/
def createLogger (e : Env) (prettyFails : Bool) (name : String)
    (level : Option String) : Except String PinoLogger :=
  let cfg := configOf e
  if selectConfig e = ConfigChoice.dev ∧ e.hasWindow = false then
    if prettyFails then Except.error "createPrettyLogStream threw"
    else Except.ok
      { config := cfg, level := orConfigLevel level cfg.level,
        sink := Sink.pretty, name := name }
  else Except.ok
    { config := cfg, level := orConfigLevel level cfg.level,
      sink := Sink.defaultDestination, name := name }

/-- The `level` field of an emitted record: the level formatter (when
present) maps the level name to its short code; otherwise pino emits
the raw numeric weight. -/
inductive LevelField where
  | code : String → LevelField
  | weight : Nat → LevelField
deriving DecidableEq, Repr

/-- Level field produced by a given option object for a level name. -/
def levelFieldOf (c : PinoConfig) (label : String) : LevelField :=
  if c.hasLevelFormatter then LevelField.code (formatLevel label)
  else LevelField.weight ((weightOf label).getD 0)

/-- One emitted log record, restricted to the fields the claims are
about (`pid`/`hostname`/`time` are process constants outside this
model). -/
structure LogRecord where
  levelField : LevelField
  name : String
  msg : String
  nargs : Nat
deriving DecidableEq, Repr

/-- The `Logger` facade class: the immutable name, the `isBrowser`
flag captured at construction, and the wrapped pino instance. -/
structure Logger where
  name : String
  isBrowser : Bool
  logger : Except String PinoLogger

/-- `new Logger(name)` under ambient signals `e` (the constructor
calls `createLogger(name)` with no explicit level). -/
def Logger.construct (e : Env) (prettyFails : Bool) (name : String) : Logger :=
  { name := name, isBrowser := e.hasWindow,
    logger := createLogger e prettyFails name none }

/-- `this.logger.<levelName>(message, ...args)`: pino emits exactly one
record when the call's weight reaches the active threshold, and nothing
otherwise.  When no level was configured, pino's default threshold is
"info" (weight 35); that `getD` also meets a configured name outside
the weight table (reachable via an inherited-prototype-key LOG_LEVEL),
a case pino's internals resolve outside this repository's code and
which no theorem below evaluates. -/
def Logger.call (l : Logger) (levelName : String) (msg : String)
    (args : List JsonValue) : List LogRecord :=
  match l.logger with
  | Except.error _ => []
  | Except.ok p =>
    match weightOf levelName with
    | none => []
    | some w =>
      let threshold := ((p.level.bind weightOf).getD 35)
      if threshold ≤ w then
        [{ levelField := levelFieldOf p.config levelName,
           name := l.name, msg := msg, nargs := args.length }]
      else []

/-- `extend(subname)`: a fresh `new Logger` on the dot-joined name,
re-resolving the ambient signals at that construction. -/
def Logger.extend (l : Logger) (e : Env) (prettyFails : Bool)
    (subname : String) : Logger :=
  Logger.construct e prettyFails (l.name ++ "." ++ subname)

/-- One attachment of the Slack payload. -/
structure SlackAttachment where
  text : String
  color : String
deriving DecidableEq, Repr

/-- The `slackMessage` object built inside `critical`. -/
structure SlackMessage where
  text : String
  attachments : List SlackAttachment
deriving DecidableEq, Repr

/-- The observable effects of one `critical(message, ...args)` call:
the pino emission, the Slack payload when a webhook address is
configured, and the number of dispatch attempts actually made to the
alert channel.  The method body only constructs the local
`slackMessage` object; it contains no fetch or post of it, so the
attempted-dispatch count is 0 on every path. -/
structure CriticalEffects where
  records : List LogRecord
  slackPayload : Option SlackMessage
  attemptedDispatches : Nat
deriving DecidableEq, Repr

/-- `critical(message, ...args)` (the `Logger.slackWebhookUrl` static
field is `process.env.SLACK_WEBHOOK_URL || null`). -/
def Logger.criticalEffects (l : Logger) (e : Env) (message : String)
    (args : List JsonValue) : CriticalEffects :=
  { records := l.call "critical" message args,
    slackPayload := e.slackWebhookUrl.map (fun _ =>
      { text := "[" ++ l.name ++ "] CRITICAL: " ++ message,
        attachments :=
          [{ text :=
               if args.length > 0 then
                 "```" ++ jsonStringify 0 (JsonValue.jarr args) ++ "```"
               else "No additional context",
             color := "danger" }] }),
    attemptedDispatches := 0 }

/-- `error(message, ...args)`. -/
def Logger.error (l : Logger) (msg : String) (args : List JsonValue) :
    List LogRecord := l.call "error" msg args

/-- `warn(message, ...args)`. -/
def Logger.warn (l : Logger) (msg : String) (args : List JsonValue) :
    List LogRecord := l.call "warn" msg args

/-- `log(message, ...args)`. -/
def Logger.log (l : Logger) (msg : String) (args : List JsonValue) :
    List LogRecord := l.call "log" msg args

/-- `info(message, ...args)`. -/
def Logger.info (l : Logger) (msg : String) (args : List JsonValue) :
    List LogRecord := l.call "info" msg args

/-- `details(message, ...args)`. -/
def Logger.details (l : Logger) (msg : String) (args : List JsonValue) :
    List LogRecord := l.call "details" msg args

/-- `debug(message, ...args)`. -/
def Logger.debug (l : Logger) (msg : String) (args : List JsonValue) :
    List LogRecord := l.call "debug" msg args

/-- `trace(message, ...args)`. -/
def Logger.trace (l : Logger) (msg : String) (args : List JsonValue) :
    List LogRecord := l.call "trace" msg args

/-- `class ColorLogger extends Logger` with an empty body: the subtype
carries exactly the base state and declares no members of its own. -/
structure ColorLogger where
  toLogger : Logger

/-- The inherited constructor. -/
def ColorLogger.construct (e : Env) (prettyFails : Bool) (name : String) :
    ColorLogger := { toLogger := Logger.construct e prettyFails name }

/-- The inherited emission methods (one per severity, via `call`). -/
def ColorLogger.call (c : ColorLogger) (levelName : String) (msg : String)
    (args : List JsonValue) : List LogRecord :=
  c.toLogger.call levelName msg args

/-- The inherited `critical` escalation path. -/
def ColorLogger.criticalEffects (c : ColorLogger) (e : Env) (message : String)
    (args : List JsonValue) : CriticalEffects :=
  c.toLogger.criticalEffects e message args

/-- The inherited `extend`. -/
def ColorLogger.extend (c : ColorLogger) (e : Env) (prettyFails : Bool)
    (subname : String) : Logger :=
  c.toLogger.extend e prettyFails subname

/-- The sequence of (logger name, level name, message) log calls the
module performs at load time, after `export const logger = new
Logger("app")`. -/
def moduleLoadCalls : List (String × String × String) :=
  [("app", "critical", "This is a critical log message"),
   ("app", "error", "This is an error log message"),
   ("app", "warn", "This is a warning log message"),
   ("app", "log", "This is a log message"),
   ("app", "info", "This is an info log message"),
   ("app", "details", "This is a details log message"),
   ("app", "debug", "This is a debug log message"),
   ("app", "trace", "This is a trace log message"),
   ("app.submodule", "info", "This is an info message from a submodule")]

/-- The records those module-load calls emit under ambient signals
`e`: the default instance is `new Logger("app")` and the last call
goes through `logger.extend("submodule")`. -/
def moduleLoadRecords (e : Env) (prettyFails : Bool) : List LogRecord :=
  let lg := Logger.construct e prettyFails "app"
  (lg.criticalEffects e "This is a critical log message" []).records ++
    lg.error "This is an error log message" [] ++
    lg.warn "This is a warning log message" [] ++
    lg.log "This is a log message" [] ++
    lg.info "This is an info log message" [] ++
    lg.details "This is a details log message" [] ++
    lg.debug "This is a debug log message" [] ++
    lg.trace "This is a trace log message" [] ++
    (lg.extend e prettyFails "submodule").info
      "This is an info message from a submodule" []

/-- A plain development server process: no browser globals, `process`
present, `NODE_ENV` not "production", no overrides configured. -/
def devDefaultEnv : Env :=
  { hasWindow := false, hasDocument := false, hasNavigator := false,
    userAgentIncludesNodeJS := false, hasProcess := true,
    nodeEnvProduction := false, logLevelVar := none,
    nextRuntimeSet := false, hasNextPublicEnvKey := false,
    slackWebhookUrl := none }

/-- The same development process with an alert-channel address
configured. -/
def slackEnv : Env :=
  { devDefaultEnv with slackWebhookUrl := some "https://hooks.slack.test/T000" }

/-- Modelled from the spec's words in §4.2, for comparison with
`selectConfig`: "first, if window, document and navigator globals are
present, the navigator's agent string does not self-identify as a
server runtime, and no process global is present, the browser
configuration is chosen; otherwise, if the explicit production-mode
signal is set, the production configuration; otherwise the development
configuration". -/
def specSelectConfig (e : Env) : ConfigChoice :=
  if e.hasWindow = true ∧ e.hasDocument = true ∧ e.hasNavigator = true ∧
      e.userAgentIncludesNodeJS = false ∧ e.hasProcess = false then
    ConfigChoice.browser
  else if e.nodeEnvProduction = true then ConfigChoice.prod
  else ConfigChoice.dev

/-- Whether a construction result is a propagated exception. -/
def constructionThrows (r : Except String PinoLogger) : Bool :=
  match r with
  | Except.error _ => true
  | Except.ok _ => false

/-- Every record produced by an emission call carries the logger's
name. -/
theorem name_of_mem_call (l : Logger) (lvl msg : String)
    (args : List JsonValue) (r : LogRecord)
    (hr : r ∈ l.call lvl msg args) : r.name = l.name := by
  simp only [Logger.call] at hr
  split at hr
  · simp at hr
  · split at hr
    · simp at hr
    · split at hr
      · rw [List.mem_singleton] at hr
        subst hr
        rfl
      · simp at hr

/-- Claim C1: `critical` with an alert address configured is required
to make exactly one attempted dispatch to the alert channel with the
documented payload.  The method body builds the payload (here, with
title "[app] CRITICAL: Database connection failure" and the literal
"No additional context" detail, since no args were passed, after
emitting the record) but contains no send of it, so the number of
attempted dispatches is 0, not 1. -/
theorem critical_builds_payload_but_never_dispatches :
    ((Logger.construct slackEnv false "app").criticalEffects slackEnv
        "Database connection failure" []).attemptedDispatches = 0
    ∧ ((Logger.construct slackEnv false "app").criticalEffects slackEnv
        "Database connection failure" []).slackPayload =
      some { text := "[app] CRITICAL: Database connection failure",
             attachments :=
               [{ text := "No additional context", color := "danger" }] }
    ∧ ((Logger.construct slackEnv false "app").criticalEffects slackEnv
        "Database connection failure" []).records.length = 1 :=
  ⟨rfl, rfl, rfl⟩

/-- Claim C2 (counterexample): the claim says the browser configuration
emits the 3-letter short code, but `browserConfig` sets no formatters
(the `...envConfig` spread is commented out), so the level field it
produces for "info" is the raw weight 35, not "INF". -/
theorem browser_level_field_not_short_code :
    ¬ levelFieldOf browserConfig "info" = LevelField.code "INF" := by decide

/-- Claim C2 (amended): for every level of the eight-level scale, only
the production configuration maps the level name to its fixed 3-letter
short code (with any unrecognized name mapping to "UNK"); both the
development and the browser configurations pass the raw numeric weight
through unformatted. -/
theorem level_field_by_configuration (e : Env) (i : Fin LOG_LEVELS.length)
    (s : String) (hs : s ∉ levelNames) :
    levelFieldOf (prodConfig e) (LOG_LEVELS.get i).1 =
        LevelField.code (shortCodeOf (LOG_LEVELS.get i).2)
    ∧ levelFieldOf (devConfig e) (LOG_LEVELS.get i).1 =
        LevelField.weight (LOG_LEVELS.get i).2
    ∧ levelFieldOf browserConfig (LOG_LEVELS.get i).1 =
        LevelField.weight (LOG_LEVELS.get i).2
    ∧ levelFieldOf (prodConfig e) s = LevelField.code "UNK" := by
  have hunk : levelFieldOf (prodConfig e) s = LevelField.code "UNK" := by
    simp [levelFieldOf, prodConfig, baseConfig, formatLevel, hs]
  fin_cases i <;> exact ⟨rfl, rfl, rfl, hunk⟩

/-- Claim C2 (witness): instantiated at the "info" level (index 4 of
the severity table) and at the unrecognized name "fatal". -/
theorem level_field_by_configuration_witness :
    levelFieldOf (prodConfig devDefaultEnv)
        (LOG_LEVELS.get ⟨4, by decide⟩).1 =
      LevelField.code (shortCodeOf (LOG_LEVELS.get ⟨4, by decide⟩).2)
    ∧ levelFieldOf (devConfig devDefaultEnv)
        (LOG_LEVELS.get ⟨4, by decide⟩).1 =
      LevelField.weight (LOG_LEVELS.get ⟨4, by decide⟩).2
    ∧ levelFieldOf browserConfig (LOG_LEVELS.get ⟨4, by decide⟩).1 =
      LevelField.weight (LOG_LEVELS.get ⟨4, by decide⟩).2
    ∧ levelFieldOf (prodConfig devDefaultEnv) "fatal" = LevelField.code "UNK" :=
  level_field_by_configuration devDefaultEnv ⟨4, by decide⟩ "fatal" (by decide)

/-- Claim C3 (counterexample): in the development non-browser branch,
when the pretty-print collaborator fails, logger construction
propagates the exception instead of falling back to another sink. -/
theorem construction_throws_when_pretty_stream_fails :
    constructionThrows (createLogger devDefaultEnv true "App" none) = true := rfl

/-- Claim C3 (amended): sink construction invokes the pretty-print
collaborator exactly in the development non-browser branch and has no
fallback there: construction throws precisely when that branch is taken
and the collaborator fails; every other combination constructs the
default-destination sink without consulting the collaborator. -/
theorem construction_throws_iff_dev_pretty_failure (e : Env) (pf : Bool)
    (name : String) (lvl : Option String) :
    constructionThrows (createLogger e pf name lvl) = true ↔
      ((selectConfig e = ConfigChoice.dev ∧ e.hasWindow = false) ∧ pf = true) := by
  by_cases hcond : selectConfig e = ConfigChoice.dev ∧ e.hasWindow = false
  · cases pf
    · simp [createLogger, constructionThrows, hcond]
    · simp [createLogger, constructionThrows, hcond]
  · simp [createLogger, constructionThrows, hcond]

/-- Claim C4: the output configuration is selected by exactly the
precedence the spec states — browser-globals check first (window,
document and navigator present, the agent string not self-identifying
as a server runtime, no process global), then the production-mode
signal, then development. -/
theorem selectConfig_matches_spec_precedence (e : Env) :
    selectConfig e = specSelectConfig e := by
  rcases e with ⟨w, d, n, u, p, pr, ll, nr, np, sw⟩
  cases w <;> cases d <;> cases n <;> cases u <;> cases p <;> cases pr <;>
    simp [selectConfig, specSelectConfig, isRealBrowser]

/-- Claim C5 (counterexample): "toString" is not one of the eight
severity names, so the claim requires the development threshold to fall
back to "details"; but `"toString" in LOG_LEVELS` is true through the
prototype chain, so the code sets "toString" as the configured level
instead of ignoring it. -/
theorem log_level_prototype_key_overrides_threshold :
    "toString" ∉ levelNames
    ∧ ¬ (devConfig { devDefaultEnv with
          logLevelVar := some "toString" }).level = some "details"
    ∧ (devConfig { devDefaultEnv with
          logLevelVar := some "toString" }).level = some "toString" := by decide

/-- Claim C5 (amended): a LOG_LEVEL value that is one of the eight
severity names becomes the threshold of both the development and the
production configuration; but the membership test is the JavaScript
`in` operator, so a value naming a property `LOG_LEVELS` inherits from
`Object.prototype` (toString, constructor, hasOwnProperty, ...) also
passes and is set as the configured level verbatim rather than being
ignored; only a value matching neither falls back to the environment's
default — "details" in development and "info" in production. -/
theorem log_level_override_resolution (e : Env) (v : String)
    (h : e.logLevelVar = some v) :
    (v ∈ levelNames →
      (devConfig e).level = some v ∧ (prodConfig e).level = some v)
    ∧ (v ∈ objectPrototypeKeys →
      (devConfig e).level = some v ∧ (prodConfig e).level = some v)
    ∧ (v ∉ levelNames → v ∉ objectPrototypeKeys →
      (devConfig e).level = some "details" ∧ (prodConfig e).level = some "info") := by
  refine ⟨?_, ?_, ?_⟩
  · intro hv
    have hne : v ≠ "" := by
      intro hveq
      rw [hveq] at hv
      exact absurd hv (by decide)
    simp [devConfig, prodConfig, baseConfig, resolveLevel, h, hne, hv]
  · intro hv
    have hne : v ≠ "" := by
      intro hveq
      rw [hveq] at hv
      exact absurd hv (by decide)
    simp [devConfig, prodConfig, baseConfig, resolveLevel, h, hne, hv]
  · intro hv1 hv2
    have hneg : ¬ (v ≠ "" ∧ (v ∈ levelNames ∨ v ∈ objectPrototypeKeys)) := by
      rintro ⟨h1, h2 | h2⟩
      · exact hv1 h2
      · exact hv2 h2
    simp [devConfig, prodConfig, baseConfig, resolveLevel, h, hneg]

/-- Claim C5 (witness): instantiated at the recognized override "warn",
the inherited-prototype-key override "toString", and the override
"bogus" that matches neither. -/
theorem log_level_override_resolution_witness :
    (devConfig { devDefaultEnv with logLevelVar := some "warn" }).level = some "warn"
    ∧ (devConfig { devDefaultEnv with
        logLevelVar := some "toString" }).level = some "toString"
    ∧ (prodConfig { devDefaultEnv with logLevelVar := some "bogus" }).level = some "info" :=
  ⟨((log_level_override_resolution
      { devDefaultEnv with logLevelVar := some "warn" } "warn" rfl).1
        (by decide)).1,
   ((log_level_override_resolution
      { devDefaultEnv with logLevelVar := some "toString" } "toString" rfl).2.1
        (by decide)).1,
   ((log_level_override_resolution
      { devDefaultEnv with logLevelVar := some "bogus" } "bogus" rfl).2.2
        (by decide) (by decide)).2⟩

/-- Claim C6: in the declared order trace, debug, details, log, info,
warn, error, critical the weights are exactly 10, 20, 25, 30, 35, 40,
50, 60; the sequence is strictly increasing and no two levels share a
weight. -/
theorem log_levels_weights_strictly_increasing :
    LOG_LEVELS.map Prod.fst =
      ["trace", "debug", "details", "log", "info", "warn", "error", "critical"]
    ∧ LOG_LEVELS.map Prod.snd = [10, 20, 25, 30, 35, 40, 50, 60]
    ∧ (LOG_LEVELS.map Prod.snd).Pairwise (fun a b => a < b)
    ∧ (LOG_LEVELS.map Prod.snd).Pairwise (fun a b => a ≠ b) := by decide

/-- Claim C7: extending twice dot-joins the names, and every record the
doubly extended logger emits carries the name "<root>.x.y". -/
theorem extend_dot_joins_names (e : Env) (pf : Bool) (r x y msg : String) :
    (((Logger.construct e pf r).extend e pf x).extend e pf y).name =
        r ++ "." ++ x ++ "." ++ y
    ∧ ∀ rec ∈ (((Logger.construct e pf r).extend e pf x).extend e pf y).call
        "info" msg [], rec.name = r ++ "." ++ x ++ "." ++ y := by
  refine ⟨rfl, ?_⟩
  intro rec hrec
  exact name_of_mem_call _ _ _ _ _ hrec

/-- Claim C7 (witness): instantiated at root "app" and subnames "x",
"y" in the default development environment. -/
theorem extend_dot_joins_names_witness :
    (((Logger.construct devDefaultEnv false "app").extend devDefaultEnv false
        "x").extend devDefaultEnv false "y").name = "app.x.y" := by
  rw [(extend_dot_joins_names devDefaultEnv false "app" "x" "y" "m").1]
  decide

/-- Claim C8: the framework-hosted detection (`isNextJS`) has no
influence on configuration selection — two environments agreeing on the
browser-globals signals, the production-mode signal and the LOG_LEVEL
override select the same configuration, whatever their
framework-specific markers. -/
theorem framework_detection_noninterference (e1 e2 : Env)
    (hw : e1.hasWindow = e2.hasWindow)
    (hd : e1.hasDocument = e2.hasDocument)
    (hn : e1.hasNavigator = e2.hasNavigator)
    (hu : e1.userAgentIncludesNodeJS = e2.userAgentIncludesNodeJS)
    (hp : e1.hasProcess = e2.hasProcess)
    (hpr : e1.nodeEnvProduction = e2.nodeEnvProduction)
    (hl : e1.logLevelVar = e2.logLevelVar) :
    selectConfig e1 = selectConfig e2 ∧ configOf e1 = configOf e2 := by
  rcases e1 with ⟨w1, d1, n1, u1, p1, pr1, ll1, nr1, np1, sw1⟩
  rcases e2 with ⟨w2, d2, n2, u2, p2, pr2, ll2, nr2, np2, sw2⟩
  simp only at hw hd hn hu hp hpr hl
  subst hw
  subst hd
  subst hn
  subst hu
  subst hp
  subst hpr
  subst hl
  exact ⟨rfl, rfl⟩

/-- Claim C8 (witness): two default development environments differing
only in the NEXT_RUNTIME marker are told apart by the detection yet
select the same configuration. -/
theorem framework_detection_noninterference_witness :
    isNextJS { devDefaultEnv with nextRuntimeSet := true } = true
    ∧ isNextJS devDefaultEnv = false
    ∧ configOf { devDefaultEnv with nextRuntimeSet := true } = configOf devDefaultEnv :=
  ⟨rfl, rfl,
   (framework_detection_noninterference
      { devDefaultEnv with nextRuntimeSet := true } devDefaultEnv
      rfl rfl rfl rfl rfl rfl rfl).2⟩

/-- Claim C9: the colorized-logger subtype is behaviorally equal to the
base Logger on the whole public surface — construction, the severity
methods (via the shared `call` dispatch), the `critical` escalation
path, and `extend` — adding no behavior of its own. -/
theorem colorLogger_behaviorally_equal (e : Env) (pf : Bool)
    (name lvl msg sub : String) (args : List JsonValue) :
    (ColorLogger.construct e pf name).call lvl msg args =
        (Logger.construct e pf name).call lvl msg args
    ∧ (ColorLogger.construct e pf name).criticalEffects e msg args =
        (Logger.construct e pf name).criticalEffects e msg args
    ∧ (ColorLogger.construct e pf name).extend e pf sub =
        (Logger.construct e pf name).extend e pf sub :=
  ⟨rfl, rfl, rfl⟩

/-- Claim C10 (counterexample): under the default development
environment (threshold "details"), the module-load `trace` call emits
no record at all, so it is not the case that exactly one message is
emitted at each of the eight severity levels. -/
theorem module_load_trace_not_emitted_by_default :
    ¬ ((moduleLoadRecords devDefaultEnv false).filter
        (fun r => r.msg == "This is a trace log message")).length = 1 := by decide

/-- Claim C10 (amended): at module load, a default Logger named "app"
makes one log call at each of the eight severity levels in the order
critical, error, warn, log, info, details, debug, trace, plus one info
call from the extended logger "app.submodule"; each call emits exactly
one record only when its weight reaches the active threshold, so under
the default development threshold "details" the debug and trace calls
emit nothing (7 records), while with LOG_LEVEL=trace all nine calls
emit. -/
theorem module_load_calls_and_default_emissions :
    moduleLoadCalls.map (fun c => (c.1, c.2.1)) =
      [("app", "critical"), ("app", "error"), ("app", "warn"), ("app", "log"),
       ("app", "info"), ("app", "details"), ("app", "debug"), ("app", "trace"),
       ("app.submodule", "info")]
    ∧ (moduleLoadRecords devDefaultEnv false).map
        (fun r => (r.name, r.levelField, r.msg)) =
      [("app", LevelField.weight 60, "This is a critical log message"),
       ("app", LevelField.weight 50, "This is an error log message"),
       ("app", LevelField.weight 40, "This is a warning log message"),
       ("app", LevelField.weight 30, "This is a log message"),
       ("app", LevelField.weight 35, "This is an info log message"),
       ("app", LevelField.weight 25, "This is a details log message"),
       ("app.submodule", LevelField.weight 35,
         "This is an info message from a submodule")]
    ∧ (moduleLoadRecords { devDefaultEnv with logLevelVar := some "trace" }
        false).length = 9 :=
  ⟨rfl, rfl, rfl⟩

end PinoCompat
